import Mathlib

/-!
Verification of the Cloud Fire storage engine (the IndexedDB-backed database
module of the repository). The engine's collections (users, files, folders)
are modelled as lists of records; each IndexedDB object store is a list whose
key uniqueness is maintained by the add operation, a point get is a first
match on the key field, and a put replaces the records carrying the written
record's key. Optional TypeScript fields (isShared?, shareToken?, ...) are
modelled as Option, with JavaScript truthiness of an optional boolean field
meaning equality with some true. Fallible operations return the error
produced (none on success) together with the resulting store state, so that
the state after a failed operation is still observable, exactly as the
mutable IndexedDB state is. Clock reads (new Date().toISOString()) are an
explicit string parameter.
-/

/-- The User record of types.ts. storageUsed and storageLimit are byte
counts held in a JavaScript number; the engine only ever adds integers to
them, so they are modelled as Int. -/
structure User where
  id : String
  username : String
  password : Option String
  email : String
  role : String
  plan : String
  avatar : String
  storageUsed : Int
  storageLimit : Int
  createdAt : String
  isActive : Bool
deriving DecidableEq

/-- The CloudFile record of types.ts (the opaque data blob is omitted: the
engine never reads it). Optional fields are Option. -/
structure CloudFile where
  id : String
  name : String
  size : Int
  type : String
  parentId : String
  createdAt : String
  mimeType : String
  ownerId : String
  storageKey : Option String
  isShared : Option Bool
  shareToken : Option String
  shareCreatedAt : Option String
  isTrashed : Option Bool
  trashedAt : Option String
deriving DecidableEq

/-- The CloudFolder record of types.ts. parentId is nullable. -/
structure CloudFolder where
  id : String
  name : String
  parentId : Option String
  createdAt : String
  ownerId : String
  isTrashed : Option Bool
  trashedAt : Option String
deriving DecidableEq

/-- The three record collections of the CloudFireDB database that the
verified operations touch (the config store is independent of them). -/
structure DB where
  users : List User
  files : List CloudFile
  folders : List CloudFolder
deriving DecidableEq

/-- store.put(user) on the users store (keyPath username): replaces the
record carrying the written record's username key. -/
def putUser (users : List User) (u : User) : List User :=
  users.map fun v => if v.username == u.username then u else v

/-- store.put(file) on the files store (keyPath id). -/
def putFile (files : List CloudFile) (f : CloudFile) : List CloudFile :=
  files.map fun v => if v.id == f.id then f else v

/-- updateUserStorage(userId, bytesToAdd): looks the user up through the
unique id index, adds bytesToAdd to storageUsed and writes the record back;
a missing user resolves without error and without change. The source never
rejects this promise on a missing user (its get error handler also
resolves), so the operation is total. -/
def updateUserStorage (db : DB) (userId : String) (bytesToAdd : Int) : DB :=
  match db.users.find? (fun u => u.id == userId) with
  | some u =>
      { db with users := putUser db.users { u with storageUsed := u.storageUsed + bytesToAdd } }
  | none => db

/-- addFileToDB(file): first awaits updateUserStorage(file.ownerId,
file.size), then store.add(file), which rejects with a ConstraintError when
a record with the same id key already exists. The quota increment is never
rolled back. -/
def addFileToDB (db : DB) (file : CloudFile) : Option String × DB :=
  let db1 := updateUserStorage db file.ownerId file.size
  if db1.files.any (fun f => f.id == file.id) then
    (some "ConstraintError", db1)
  else
    (none, { db1 with files := db1.files ++ [file] })

/-- getFilesFromDB(parentId, ownerId): the parentId index getAll, then the
in-memory filter on owner match and not-trashed. -/
def getFilesFromDB (db : DB) (parentId ownerId : String) : List CloudFile :=
  (db.files.filter (fun f => f.parentId == parentId)).filter
    (fun f => f.ownerId == ownerId && !(f.isTrashed == some true))

/-- getFoldersFromDB(parentId, ownerId): same shape as getFilesFromDB; the
index only matches folders whose nullable parentId holds the given string. -/
def getFoldersFromDB (db : DB) (parentId ownerId : String) : List CloudFolder :=
  (db.folders.filter (fun f => f.parentId == some parentId)).filter
    (fun f => f.ownerId == ownerId && !(f.isTrashed == some true))

/-- trashFile(id): get by id; when found, sets isTrashed true, stamps
trashedAt with the current time, clears isShared only when it was truthy,
and puts the record back; when not found it resolves without error. -/
def trashFile (db : DB) (id : String) (now : String) : Option String × DB :=
  match db.files.find? (fun f => f.id == id) with
  | some file =>
      let file1 := { file with
        isTrashed := some true
        trashedAt := some now
        isShared := if file.isShared == some true then some false else file.isShared }
      (none, { db with files := putFile db.files file1 })
  | none => (none, db)

/-- restoreFile(id): get by id; when found, sets isTrashed to false and
trashedAt to undefined and puts the record back; when not found it resolves
without error. The share fields are not touched. -/
def restoreFile (db : DB) (id : String) : Option String × DB :=
  match db.files.find? (fun f => f.id == id) with
  | some file =>
      (none, { db with files := putFile db.files { file with isTrashed := some false, trashedAt := none } })
  | none => (none, db)

/-- deleteFileFromDB(id, ownerId, size): first awaits
updateUserStorage(ownerId, -size), then store.delete(id), which succeeds
whether or not a record with that key exists. -/
def deleteFileFromDB (db : DB) (id ownerId : String) (size : Int) : Option String × DB :=
  let db1 := updateUserStorage db ownerId (-size)
  (none, { db1 with files := db1.files.filter (fun f => !(f.id == id)) })

/-- updateFileShareStatus(fileId, isShared, shareToken?): get by id; when
found, overwrites isShared with the boolean argument, shareToken with the
(possibly absent) token argument, shareCreatedAt with now when enabling and
undefined when disabling, and puts the record back; when not found it
rejects with the not-found message and changes nothing. -/
def updateFileShareStatus (db : DB) (fileId : String) (isShared : Bool)
    (shareToken : Option String) (now : String) : Option String × DB :=
  match db.files.find? (fun f => f.id == fileId) with
  | some file =>
      let file1 := { file with
        isShared := some isShared
        shareToken := shareToken
        shareCreatedAt := if isShared then some now else none }
      (none, { db with files := putFile db.files file1 })
  | none => (some "Arquivo não encontrado", db)

/-- getFileByShareToken(token): cursor scan of the files store returning
the first record with truthy isShared, shareToken strictly equal to the
token, and not truthy isTrashed; null when the scan is exhausted. -/
def getFileByShareToken (db : DB) (token : String) : Option CloudFile :=
  db.files.find?
    (fun f => f.isShared == some true && f.shareToken == some token && !(f.isTrashed == some true))

/-- The observable the quota claims are about: the storageUsed of the user
found through the unique id index, when such a user exists. -/
def storageUsedOf (db : DB) (userId : String) : Option Int :=
  (db.users.find? (fun u => u.id == userId)).map (fun u => u.storageUsed)

/-! Helper lemmas about the put/find? interaction. -/

/-- A put to the users store of a record sharing the found record's username
and id is what a subsequent lookup through the id index finds. -/
theorem find?_putUser {L : List User} {uid : String} {u : User} (u' : User)
    (hf : L.find? (fun v => v.id == uid) = some u)
    (hun : u'.username = u.username) (hid : u'.id = u.id) :
    (putUser L u').find? (fun v => v.id == uid) = some u' := by
  induction L with
  | nil => simp at hf
  | cons h t ih =>
    simp only [putUser, List.map_cons]
    cases hpa : (h.id == uid) with
    | true =>
      rw [List.find?_cons_of_pos (p := fun v => v.id == uid) t hpa] at hf
      obtain rfl : h = u := by injection hf
      rw [if_pos (by simp [hun])]
      exact List.find?_cons_of_pos _ (by simp [hid]; simpa using hpa)
    | false =>
      rw [List.find?_cons_of_neg (p := fun v => v.id == uid) t (by simp [hpa])] at hf
      have hpu : (u.id == uid) = true :=
        List.find?_some (p := fun (v : User) => v.id == uid) hf
      by_cases hname : (h.username == u'.username) = true
      · rw [if_pos hname]
        exact List.find?_cons_of_pos _ (by simp [hid]; simpa using hpu)
      · rw [if_neg hname]
        rw [List.find?_cons_of_neg _ (by simp [hpa])]
        exact ih hf

/-- A put to the files store of a record sharing the found record's id is
what a subsequent get by that id finds. -/
theorem find?_putFile {L : List CloudFile} {fid : String} {f : CloudFile} (f' : CloudFile)
    (hf : L.find? (fun g => g.id == fid) = some f) (hid : f'.id = f.id) :
    (putFile L f').find? (fun g => g.id == fid) = some f' := by
  induction L with
  | nil => simp at hf
  | cons h t ih =>
    simp only [putFile, List.map_cons]
    cases hpa : (h.id == fid) with
    | true =>
      rw [List.find?_cons_of_pos (p := fun g => g.id == fid) t hpa] at hf
      obtain rfl : h = f := by injection hf
      rw [if_pos (by simp [hid])]
      exact List.find?_cons_of_pos _ (by simp [hid]; simpa using hpa)
    | false =>
      rw [List.find?_cons_of_neg (p := fun g => g.id == fid) t (by simp [hpa])] at hf
      have hpu : (f.id == fid) = true :=
        List.find?_some (p := fun (g : CloudFile) => g.id == fid) hf
      have hname : (h.id == f'.id) = false := by
        rw [hid]
        by_contra hc
        simp only [Bool.not_eq_false, beq_iff_eq] at hc
        rw [hc] at hpa
        rw [hpa] at hpu
        exact Bool.false_ne_true hpu
      rw [if_neg (by simp [hname])]
      rw [List.find?_cons_of_neg _ (by simp [hpa])]
      exact ih hf

/-- updateUserStorage never touches the files collection. -/
theorem files_updateUserStorage (db : DB) (uid : String) (d : Int) :
    (updateUserStorage db uid d).files = db.files := by
  unfold updateUserStorage
  cases db.users.find? (fun u => u.id == uid) <;> rfl

/-- updateUserStorage never touches the folders collection. -/
theorem folders_updateUserStorage (db : DB) (uid : String) (d : Int) :
    (updateUserStorage db uid d).folders = db.folders := by
  unfold updateUserStorage
  cases db.users.find? (fun u => u.id == uid) <;> rfl

/-- addFileToDB never touches the users collection beyond its quota step. -/
theorem users_addFileToDB (db : DB) (file : CloudFile) :
    ((addFileToDB db file).2).users = (updateUserStorage db file.ownerId file.size).users := by
  unfold addFileToDB
  simp only
  split <;> rfl

/-- Looking the user up after updateUserStorage finds the incremented
record. -/
theorem find?_updateUserStorage {db : DB} {uid : String} {u : User}
    (hf : db.users.find? (fun v => v.id == uid) = some u) (d : Int) :
    (updateUserStorage db uid d).users.find? (fun v => v.id == uid)
      = some { u with storageUsed := u.storageUsed + d } := by
  unfold updateUserStorage
  rw [hf]
  exact find?_putUser _ hf rfl rfl

/-- deleteFileFromDB changes the users collection only through its quota
step. -/
theorem users_deleteFileFromDB (db : DB) (id ownerId : String) (s : Int) :
    ((deleteFileFromDB db id ownerId s).2).users = (updateUserStorage db ownerId (-s)).users := rfl

/-! Concrete records used by the witnesses. -/

/-- A seeded user. -/
def aliceUser : User :=
  { id := "u1", username := "alice", password := some "pw", email := "a@x",
    role := "user", plan := "free", avatar := "", storageUsed := 100,
    storageLimit := 5000, createdAt := "t0", isActive := true }

/-- A user already over quota. -/
def bobUser : User :=
  { aliceUser with
    id := "u2", username := "bob", storageUsed := 9000, storageLimit := 5000 }

/-- A plain unshared untrashed file of aliceUser. -/
def sampleFile : CloudFile :=
  { id := "f1", name := "doc.pdf", size := 42, type := "DOCUMENT",
    parentId := "root", createdAt := "t1", mimeType := "application/pdf",
    ownerId := "u1", storageKey := none, isShared := none, shareToken := none,
    shareCreatedAt := none, isTrashed := none, trashedAt := none }

/-- A shared file of aliceUser with token tok. -/
def sharedFile : CloudFile :=
  { sampleFile with
    id := "f2", isShared := some true, shareToken := some "tok",
    shareCreatedAt := some "t2" }

/-- A trashed file whose share fields are stale. -/
def trashedSharedFile : CloudFile :=
  { sampleFile with
    id := "f3", isShared := some true, shareToken := some "tok3",
    isTrashed := some true, trashedAt := some "t3" }

/-- A file of another owner in the same folder. -/
def otherOwnerFile : CloudFile :=
  { sampleFile with id := "f4", ownerId := "u2" }

/-- A trashed file of aliceUser in the same folder. -/
def trashedFile : CloudFile :=
  { sampleFile with id := "f5", isTrashed := some true, trashedAt := some "t5" }

/-- A file colliding with sampleFile on the id key. -/
def dupIdFile : CloudFile :=
  { sampleFile with name := "other.pdf", size := 7 }

/-- A file of the over-quota user with a fresh id. -/
def bobFile : CloudFile :=
  { sampleFile with id := "f9", ownerId := "u2", size := 1234 }

/-- A folder of aliceUser under the root sentinel. -/
def sampleFolder : CloudFolder :=
  { id := "d1", name := "docs", parentId := some "root", createdAt := "t0",
    ownerId := "u1", isTrashed := none, trashedAt := none }

/-- A store with aliceUser and no files. -/
def db0 : DB := { users := [aliceUser], files := [], folders := [] }

/-- A store with three files of mixed share and trash state. -/
def db2 : DB :=
  { users := [aliceUser], files := [sampleFile, sharedFile, trashedSharedFile],
    folders := [] }

/-- A store with aliceUser and the plain file. -/
def db3 : DB := { users := [aliceUser], files := [sampleFile], folders := [] }

/-- The empty store. -/
def emptyDB : DB := { users := [], files := [], folders := [] }

/-- A store with the over-quota user and no files. -/
def dbOver : DB := { users := [bobUser], files := [], folders := [] }

/-- A store mixing owners and trash states. -/
def mixedDB : DB :=
  { users := [aliceUser, bobUser],
    files := [sampleFile, otherOwnerFile, trashedFile],
    folders := [sampleFolder] }

/-- Claim C1: for every user that exists in the store, addFileToDB of a file
owned by that user followed immediately by deleteFileFromDB of the same file
with the same size, with no other mutation in between, leaves the owner's
storageUsed exactly at its pre-upload value. -/
theorem upload_then_purge_restores_storageUsed (db : DB) (file : CloudFile) (u : User)
    (hu : db.users.find? (fun v => v.id == file.ownerId) = some u) :
    storageUsedOf
        (deleteFileFromDB (addFileToDB db file).2 file.id file.ownerId file.size).2
        file.ownerId
      = storageUsedOf db file.ownerId := by
  have h2 : ((addFileToDB db file).2).users.find? (fun v => v.id == file.ownerId)
      = some { u with storageUsed := u.storageUsed + file.size } := by
    rw [users_addFileToDB]
    exact find?_updateUserStorage hu file.size
  have h3 := find?_updateUserStorage h2 (-file.size)
  unfold storageUsedOf
  rw [users_deleteFileFromDB, h3, hu]
  simp only [Option.map_some']
  congr 1
  omega

/-- Claim C1 witness, at a concrete store and file. -/
theorem upload_then_purge_restores_storageUsed_witness :
    storageUsedOf
        (deleteFileFromDB (addFileToDB db0 sampleFile).2 sampleFile.id
          sampleFile.ownerId sampleFile.size).2 sampleFile.ownerId
      = storageUsedOf db0 sampleFile.ownerId :=
  upload_then_purge_restores_storageUsed db0 sampleFile aliceUser (by decide)

/-- Claim C2: getFileByShareToken returns a stored record only if it is
shared, carries exactly the queried token and is not trashed; when no stored
file satisfies that predicate (unknown token, revoked sharing, trashed file
with a stale token) it returns none rather than an error; being a pure
function of the store state, repeated calls with no mutation in between
trivially agree. -/
theorem getFileByShareToken_spec (db : DB) (t : String) :
    (∀ f, getFileByShareToken db t = some f →
        f ∈ db.files ∧ f.isShared = some true ∧ f.shareToken = some t ∧
          f.isTrashed ≠ some true) ∧
    ((∀ f ∈ db.files,
        ¬(f.isShared = some true ∧ f.shareToken = some t ∧ f.isTrashed ≠ some true)) →
      getFileByShareToken db t = none) := by
  constructor
  · intro f hf
    have hm := List.mem_of_find?_eq_some hf
    have hp := List.find?_some
      (p := fun (f : CloudFile) =>
        f.isShared == some true && f.shareToken == some t && !(f.isTrashed == some true)) hf
    simp only [Bool.and_eq_true, beq_iff_eq, Bool.not_eq_true', beq_eq_false_iff_ne,
      ne_eq] at hp
    exact ⟨hm, hp.1.1, hp.1.2, hp.2⟩
  · intro hnone
    unfold getFileByShareToken
    rw [List.find?_eq_none]
    intro f hf
    have h := hnone f hf
    simp only [Bool.and_eq_true, beq_iff_eq, Bool.not_eq_true', beq_eq_false_iff_ne,
      ne_eq]
    tauto

/-- Claim C2 witness: a live token resolves to the non-trashed shared record
and the stale token of the trashed file does not resolve. -/
theorem getFileByShareToken_spec_witness :
    (sharedFile ∈ db2.files ∧ sharedFile.isShared = some true ∧
      sharedFile.shareToken = some "tok" ∧ sharedFile.isTrashed ≠ some true) ∧
    getFileByShareToken db2 "tok3" = none :=
  ⟨(getFileByShareToken_spec db2 "tok").1 sharedFile (by decide),
   (getFileByShareToken_spec db2 "tok3").2 (by decide)⟩

/-- Claim C3 counterexample: enabling sharing with an absent token argument
succeeds and leaves the record shared while shareToken is absent, so the
operation does not always leave a present shareToken. -/
theorem setShare_enabled_absent_token_counterexample :
    (updateFileShareStatus db3 "f1" true none "t9").1 = none ∧
    ((updateFileShareStatus db3 "f1" true none "t9").2.files.find?
        (fun f => f.id == "f1")).map (fun f => (f.isShared, f.shareToken))
      = some (some true, none) := by
  constructor <;> rfl

/-- Claim C3 amended: updateFileShareStatus with enabled true stores exactly
the caller's token argument, so the record ends with a present shareToken
precisely when a token is provided; with an absent argument the record is
left shared with an absent shareToken. -/
theorem setShare_enabled_stores_given_token (db : DB) (fid now : String)
    (tok : Option String) (f : CloudFile)
    (hf : db.files.find? (fun g => g.id == fid) = some f) :
    (updateFileShareStatus db fid true tok now).2.files.find? (fun g => g.id == fid)
      = some { f with
          isShared := some true, shareToken := tok, shareCreatedAt := some now } := by
  unfold updateFileShareStatus
  rw [hf]
  exact find?_putFile _ hf rfl

/-- Claim C3 amended witness, at a concrete store with a provided token. -/
theorem setShare_enabled_stores_given_token_witness :
    (updateFileShareStatus db3 "f1" true (some "tk") "t9").2.files.find?
        (fun g => g.id == "f1")
      = some { sampleFile with
          isShared := some true, shareToken := some "tk",
          shareCreatedAt := some "t9" } :=
  setShare_enabled_stores_given_token db3 "f1" "t9" (some "tk") sampleFile (by decide)

/-- Claim C4: trashing an existing file sets isTrashed and trashedAt and
leaves it unshared (a truthy isShared is forced to false, an already falsy
one stays falsy); restoring an existing file clears isTrashed and trashedAt
and leaves isShared exactly as it was, so it never turns sharing back on,
whatever the prior share state. -/
theorem trash_restore_share_state (db : DB) (fid now : String) (f : CloudFile)
    (hf : db.files.find? (fun g => g.id == fid) = some f) :
    (∃ g, (trashFile db fid now).2.files.find? (fun v => v.id == fid) = some g ∧
        g.isTrashed = some true ∧ g.trashedAt = some now ∧ g.isShared ≠ some true) ∧
    (∃ g, (restoreFile db fid).2.files.find? (fun v => v.id == fid) = some g ∧
        g.isTrashed = some false ∧ g.trashedAt = none ∧ g.isShared = f.isShared) := by
  constructor
  · refine ⟨{ f with
        isTrashed := some true, trashedAt := some now,
        isShared := if f.isShared == some true then some false else f.isShared },
      ?_, rfl, rfl, ?_⟩
    · unfold trashFile
      rw [hf]
      exact find?_putFile _ hf rfl
    · by_cases hs : (f.isShared == some true) = true
      · simp [hs]
      · simp only [if_neg hs]
        simpa using hs
  · refine ⟨{ f with isTrashed := some false, trashedAt := none }, ?_, rfl, rfl, rfl⟩
    unfold restoreFile
    rw [hf]
    exact find?_putFile _ hf rfl

/-- Claim C4 witness, at a concrete store and a shared file. -/
theorem trash_restore_share_state_witness :
    (∃ g, (trashFile db2 "f2" "t7").2.files.find? (fun v => v.id == "f2") = some g ∧
        g.isTrashed = some true ∧ g.trashedAt = some "t7" ∧ g.isShared ≠ some true) ∧
    (∃ g, (restoreFile db2 "f2").2.files.find? (fun v => v.id == "f2") = some g ∧
        g.isTrashed = some false ∧ g.trashedAt = none ∧
        g.isShared = sharedFile.isShared) :=
  trash_restore_share_state db2 "f2" "t7" sharedFile (by decide)

/-- Claim C5: trashFile and restoreFile on a missing file id, and
updateUserStorage on a missing user id, succeed without error and leave the
store unchanged. -/
theorem missing_entity_soft_ops (db : DB) (fid uid now : String) (d : Int)
    (hfile : db.files.find? (fun g => g.id == fid) = none)
    (huser : db.users.find? (fun v => v.id == uid) = none) :
    trashFile db fid now = (none, db) ∧ restoreFile db fid = (none, db) ∧
    updateUserStorage db uid d = db := by
  refine ⟨?_, ?_, ?_⟩ <;>
    simp [trashFile, restoreFile, updateUserStorage, hfile, huser]

/-- Claim C5 witness, on the empty store. -/
theorem missing_entity_soft_ops_witness :
    trashFile emptyDB "x" "t" = (none, emptyDB) ∧
    restoreFile emptyDB "x" = (none, emptyDB) ∧
    updateUserStorage emptyDB "y" 5 = emptyDB :=
  missing_entity_soft_ops emptyDB "x" "y" "t" 5 rfl rfl

/-- Claim C6: updateFileShareStatus on a missing file id rejects with the
not-found error, for both enabled values and any token argument, and leaves
the store unchanged. -/
theorem setShare_missing_is_error (db : DB) (fid now : String) (enabled : Bool)
    (tok : Option String)
    (hfile : db.files.find? (fun g => g.id == fid) = none) :
    updateFileShareStatus db fid enabled tok now
      = (some "Arquivo não encontrado", db) := by
  simp [updateFileShareStatus, hfile]

/-- Claim C6 witness, on the empty store with both enabled values. -/
theorem setShare_missing_is_error_witness :
    updateFileShareStatus emptyDB "x" true (some "tk") "t"
        = (some "Arquivo não encontrado", emptyDB) ∧
    updateFileShareStatus emptyDB "x" false none "t"
        = (some "Arquivo não encontrado", emptyDB) :=
  ⟨setShare_missing_is_error emptyDB "x" "t" true (some "tk") rfl,
   setShare_missing_is_error emptyDB "x" "t" false none rfl⟩

/-- Claim C7: when the add step fails because a record with the file's id
key already exists, addFileToDB reports the error with the owner's
storageUsed already increased by the file's size and no file record added;
the quota increment performed before the add is not rolled back. -/
theorem addFileToDB_no_rollback (db : DB) (file : CloudFile) (u : User)
    (hdup : db.files.any (fun f => f.id == file.id) = true)
    (hu : db.users.find? (fun v => v.id == file.ownerId) = some u) :
    (addFileToDB db file).1 = some "ConstraintError" ∧
    ((addFileToDB db file).2).files = db.files ∧
    storageUsedOf (addFileToDB db file).2 file.ownerId
      = some (u.storageUsed + file.size) := by
  have hfiles : (updateUserStorage db file.ownerId file.size).files = db.files :=
    files_updateUserStorage db file.ownerId file.size
  have hcond :
      ((updateUserStorage db file.ownerId file.size).files.any
        (fun f => f.id == file.id)) = true := by
    rw [hfiles]
    exact hdup
  refine ⟨?_, ?_, ?_⟩
  · unfold addFileToDB
    simp only
    rw [if_pos hcond]
  · unfold addFileToDB
    simp only
    rw [if_pos hcond]
    exact hfiles
  · unfold storageUsedOf
    rw [users_addFileToDB, find?_updateUserStorage hu file.size]
    rfl

/-- Claim C7 witness: adding a file that collides on the id key errors while
the owner's usage stays increased and the files collection is unchanged. -/
theorem addFileToDB_no_rollback_witness :
    (addFileToDB db3 dupIdFile).1 = some "ConstraintError" ∧
    ((addFileToDB db3 dupIdFile).2).files = db3.files ∧
    storageUsedOf (addFileToDB db3 dupIdFile).2 dupIdFile.ownerId
      = some (aliceUser.storageUsed + dupIdFile.size) :=
  addFileToDB_no_rollback db3 dupIdFile aliceUser (by decide) (by decide)

/-- Claim C8: addFileToDB never rejects because of quota: whenever the
file's id key is fresh it succeeds and appends the record, whatever the
owner's storageUsed and storageLimit are; nothing in the operation compares
storageUsed with storageLimit. -/
theorem addFileToDB_ignores_quota (db : DB) (file : CloudFile)
    (hfresh : db.files.any (fun f => f.id == file.id) = false) :
    (addFileToDB db file).1 = none ∧
    ((addFileToDB db file).2).files = db.files ++ [file] := by
  have hfiles : (updateUserStorage db file.ownerId file.size).files = db.files :=
    files_updateUserStorage db file.ownerId file.size
  have hcond :
      ((updateUserStorage db file.ownerId file.size).files.any
        (fun f => f.id == file.id)) = false := by
    rw [hfiles]
    exact hfresh
  constructor
  · unfold addFileToDB
    simp only
    rw [if_neg (by simp [hcond])]
  · unfold addFileToDB
    simp only
    rw [if_neg (by simp [hcond])]
    simp [hfiles]

/-- Claim C8 witness: the upload succeeds for an owner whose storageUsed
already exceeds storageLimit. -/
theorem addFileToDB_ignores_quota_witness :
    bobUser.storageLimit ≤ bobUser.storageUsed ∧
    (addFileToDB dbOver bobFile).1 = none ∧
    ((addFileToDB dbOver bobFile).2).files = dbOver.files ++ [bobFile] :=
  ⟨by decide, addFileToDB_ignores_quota dbOver bobFile rfl⟩

/-- Claim C9: every entry returned by getFilesFromDB or getFoldersFromDB is
owned by the queried owner, sits under the queried parent and is not
trashed; an entry of a different owner or a trashed entry is never
returned. -/
theorem list_only_owned_untrashed (db : DB) (pid oid : String) :
    (∀ f ∈ getFilesFromDB db pid oid,
        f.ownerId = oid ∧ f.parentId = pid ∧ f.isTrashed ≠ some true) ∧
    (∀ g ∈ getFoldersFromDB db pid oid,
        g.ownerId = oid ∧ g.parentId = some pid ∧ g.isTrashed ≠ some true) := by
  constructor
  · intro f hf
    unfold getFilesFromDB at hf
    simp only [List.mem_filter, Bool.and_eq_true, beq_iff_eq, Bool.not_eq_true',
      beq_eq_false_iff_ne, ne_eq] at hf
    obtain ⟨⟨hmem, hpar⟩, hown, htr⟩ := hf
    exact ⟨hown, hpar, htr⟩
  · intro g hg
    unfold getFoldersFromDB at hg
    simp only [List.mem_filter, Bool.and_eq_true, beq_iff_eq, Bool.not_eq_true',
      beq_eq_false_iff_ne, ne_eq] at hg
    obtain ⟨⟨hmem, hpar⟩, hown, htr⟩ := hg
    exact ⟨hown, hpar, htr⟩

/-- Claim C9 witness, on a store mixing owners and trash states. -/
theorem list_only_owned_untrashed_witness :
    (sampleFile.ownerId = "u1" ∧ sampleFile.parentId = "root" ∧
      sampleFile.isTrashed ≠ some true) ∧
    (sampleFolder.ownerId = "u1" ∧ sampleFolder.parentId = some "root" ∧
      sampleFolder.isTrashed ≠ some true) :=
  ⟨(list_only_owned_untrashed mixedDB "root" "u1").1 sampleFile (by decide),
   (list_only_owned_untrashed mixedDB "root" "u1").2 sampleFolder (by decide)⟩

/-- Claim C10: deleteFileFromDB decrements the owner's storageUsed by
exactly the given size for every file id, whether or not a file record with
that id exists; the quota decrement is unconditional. -/
theorem purge_decrements_unconditionally (db : DB) (fid oid : String) (s : Int)
    (u : User) (hu : db.users.find? (fun v => v.id == oid) = some u) :
    storageUsedOf (deleteFileFromDB db fid oid s).2 oid
      = some (u.storageUsed - s) := by
  unfold storageUsedOf
  rw [users_deleteFileFromDB, find?_updateUserStorage hu (-s)]
  simp only [Option.map_some']
  congr 1

/-- Claim C10 witness: purging an id with no record still decrements the
owner's usage. -/
theorem purge_decrements_unconditionally_witness :
    db3.files.find? (fun g => g.id == "ghost") = none ∧
    storageUsedOf (deleteFileFromDB db3 "ghost" "u1" 25).2 "u1"
      = some (aliceUser.storageUsed - 25) :=
  ⟨rfl, purge_decrements_unconditionally db3 "ghost" "u1" 25 aliceUser rfl⟩
